import Mathlib

/-!
# Crowd-Aware Route Recommendation Engine — verification development

Shallow embedding of the core route-synthesis code (traffic simulator,
road graph, A* search, route generator, geometry-resolution pipeline)
with proofs of the specified properties.

Conventions used throughout:
* JavaScript `number` values are modelled as exact rationals (`ℚ`); the
  only places where floating-point transcendentals appear (haversine
  trigonometry, the A* haversine heuristic) are modelled as injected
  function parameters, since the properties proved here do not depend
  on their values.
* `Math.random()` draws and `crypto.randomUUID()` ids are modelled as
  explicitly passed streams (`ℕ → ℚ`, `ℕ → String`), so every function
  is deterministic in its arguments.
* `Math.floor` is `Int.floor`, `Math.round` is `round` (both agree with
  the JavaScript semantics on the non-negative values arising here),
  and `x.toFixed(2)` (parsed back) is rounding to hundredths.
-/

namespace CrowdAware

/-- Crowd/congestion classification, totally ordered `low < medium < high`. -/
inductive CrowdLevel where
  | low
  | medium
  | high
deriving DecidableEq, Repr

/-- Road classification from `roadNetwork.ts` (`roadType`). -/
inductive RoadClass where
  | highway
  | main
  | local
deriving DecidableEq, Repr

/-- A latitude/longitude pair (`{ lat, lng }`). -/
structure Coord where
  lat : ℚ
  lng : ℚ
deriving DecidableEq, Repr

/-- A traffic segment as produced by the TomTom service:
`{ color, start_index, end_index }` over a path's coordinate indices. -/
structure TrafficSeg where
  color : String
  start_index : ℕ
  end_index : ℕ
deriving DecidableEq, Repr

/-- Traffic-signal state (`'red' | 'green' | 'yellow'`). -/
inductive SignalState where
  | red
  | green
  | yellow
deriving DecidableEq, Repr

/-- A traffic signal marker (`{ lat, lng, state }`), passed through unchanged. -/
structure TrafficSignal where
  lat : ℚ
  lng : ℚ
  state : SignalState
deriving DecidableEq, Repr

/-! ## Traffic Cost Model (`trafficSimulator.ts`) -/

/-- `day === 0 || day === 6` (Sunday or Saturday), from
`getCurrentTrafficMultiplier` in `trafficSimulator.ts`. -/
def isWeekendDay (day : ℕ) : Bool := day == 0 || day == 6

/-- `getCurrentTrafficMultiplier` from `trafficSimulator.ts`, with the
`new Date()` reads (`getDay()`, `getHours()`) made explicit parameters:
`day` is 0 = Sunday … 6 = Saturday, `hour` is the 0–23 clock hour.
The source returns early inside an `if (!isWeekend)` block for the two
rush-hour brackets; the remaining brackets are checked afterwards. -/
def getCurrentTrafficMultiplier (day hour : ℕ) : ℚ :=
  let weekendFactor : ℚ := if isWeekendDay day then 7/10 else 1
  if ¬ isWeekendDay day ∧ 8 ≤ hour ∧ hour < 10 then (9/5) * weekendFactor
  else if ¬ isWeekendDay day ∧ 17 ≤ hour ∧ hour < 20 then 2 * weekendFactor
  else if 23 ≤ hour ∨ hour < 6 then (1/2) * weekendFactor
  else if 10 ≤ hour ∧ hour < 17 then (6/5) * weekendFactor
  else if 20 ≤ hour ∧ hour < 23 then (4/5) * weekendFactor
  else 1 * weekendFactor

/-- `calculateAIOptimizedTime` from `trafficSimulator.ts`; the single
`Math.random()` draw is the parameter `r` (so the seeded reduction factor
is `3/10 + r * (3/20)` at crowd level `high`, etc.). -/
def calculateAIOptimizedTime (waitTimeWithoutAI : ℚ) (crowdLevel : CrowdLevel)
    (r : ℚ) : ℤ :=
  let reductionFactor : ℚ :=
    match crowdLevel with
    | .low => 1/20 + r * (1/10)
    | .medium => 1/5 + r * (3/20)
    | .high => 3/10 + r * (3/20)
  let optimizedTime := waitTimeWithoutAI * (1 - reductionFactor)
  round (max 15 optimizedTime)

/-! ## Crowd classification from provider segments (`routeGenerator.ts`) -/

/-- `calculateCrowdFromSegments` from `routeGenerator.ts`: classifies a
route from the colors of its traffic segments (red `#ef4444`,
orange `#f59e0b`); an absent or empty segment list yields `low`. -/
def calculateCrowdFromSegments (segments : Option (List TrafficSeg)) : CrowdLevel :=
  match segments with
  | none => .low
  | some segs =>
    if segs.isEmpty then .low
    else
      let redCount := segs.countP (fun s => s.color == "#ef4444")
      let orangeCount := segs.countP (fun s => s.color == "#f59e0b")
      let total := segs.length
      let redRatio : ℚ := (redCount : ℚ) / (total : ℚ)
      let orangeRatio : ℚ := (orangeCount : ℚ) / (total : ℚ)
      if redRatio > 3/10 then .high
      else if redRatio > 1/10 || orangeRatio > 2/5 then .medium
      else .low

/-! ## Road Graph Model (`roadNetwork.ts`) -/

/-- Location category tag (`'major' | 'junction' | 'landmark'`). -/
inductive LocType where
  | major
  | junction
  | landmark
deriving DecidableEq, Repr

/-- A named location of the road network. -/
structure Location where
  id : String
  name : String
  lat : ℚ
  lng : ℚ
  type : LocType
deriving DecidableEq, Repr

/-- A road segment; `fromId`/`toId` stand for the source fields
`from`/`to` (`from` is a reserved word in Lean). -/
structure RoadEdge where
  fromId : String
  toId : String
  distance : ℚ
  roadType : RoadClass
  baseSpeed : ℚ
deriving DecidableEq, Repr

/-- The `locations` record of `roadNetwork.ts` as a key/value list in
declaration order (`Object.keys` order). -/
def locations : List (String × Location) :=
  [ ("connaught_place", ⟨"connaught_place", "Connaught Place", 286315/10000, 772167/10000, .major⟩),
    ("india_gate", ⟨"india_gate", "India Gate", 286129/10000, 772295/10000, .landmark⟩),
    ("chandni_chowk", ⟨"chandni_chowk", "Chandni Chowk", 286506/10000, 772303/10000, .major⟩),
    ("karol_bagh", ⟨"karol_bagh", "Karol Bagh", 286519/10000, 771900/10000, .major⟩),
    ("rajouri_garden", ⟨"rajouri_garden", "Rajouri Garden", 286414/10000, 771214/10000, .major⟩),
    ("nehru_place", ⟨"nehru_place", "Nehru Place", 285494/10000, 772501/10000, .major⟩),
    ("saket", ⟨"saket", "Saket", 285244/10000, 772066/10000, .major⟩),
    ("dwarka", ⟨"dwarka", "Dwarka", 285921/10000, 770460/10000, .major⟩),
    ("noida_sector_18", ⟨"noida_sector_18", "Noida Sector 18", 285697/10000, 773227/10000, .major⟩),
    ("gurgaon_cyber_city", ⟨"gurgaon_cyber_city", "Gurgaon Cyber City", 284950/10000, 770870/10000, .major⟩),
    ("lajpat_nagar", ⟨"lajpat_nagar", "Lajpat Nagar", 285677/10000, 772431/10000, .major⟩),
    ("hauz_khas", ⟨"hauz_khas", "Hauz Khas", 285494/10000, 771932/10000, .major⟩),
    ("kashmere_gate", ⟨"kashmere_gate", "Kashmere Gate", 286670/10000, 772280/10000, .junction⟩),
    ("iffco_chowk", ⟨"iffco_chowk", "IFFCO Chowk", 284730/10000, 770320/10000, .junction⟩) ]

/-- The `roads` array of `roadNetwork.ts`. -/
def roads : List RoadEdge :=
  [ ⟨"connaught_place", "india_gate", 25/10, .main, 35⟩,
    ⟨"connaught_place", "karol_bagh", 52/10, .main, 30⟩,
    ⟨"connaught_place", "chandni_chowk", 48/10, .local, 25⟩,
    ⟨"connaught_place", "kashmere_gate", 55/10, .main, 35⟩,
    ⟨"india_gate", "lajpat_nagar", 65/10, .main, 40⟩,
    ⟨"india_gate", "nehru_place", 80/10, .main, 40⟩,
    ⟨"chandni_chowk", "kashmere_gate", 20/10, .local, 20⟩,
    ⟨"karol_bagh", "rajouri_garden", 60/10, .main, 35⟩,
    ⟨"karol_bagh", "hauz_khas", 85/10, .main, 35⟩,
    ⟨"rajouri_garden", "dwarka", 120/10, .highway, 60⟩,
    ⟨"nehru_place", "lajpat_nagar", 35/10, .main, 30⟩,
    ⟨"nehru_place", "saket", 50/10, .main, 35⟩,
    ⟨"nehru_place", "noida_sector_18", 100/10, .highway, 55⟩,
    ⟨"saket", "hauz_khas", 40/10, .main, 35⟩,
    ⟨"saket", "gurgaon_cyber_city", 140/10, .highway, 60⟩,
    ⟨"hauz_khas", "lajpat_nagar", 45/10, .main, 30⟩,
    ⟨"hauz_khas", "iffco_chowk", 150/10, .highway, 55⟩,
    ⟨"dwarka", "iffco_chowk", 80/10, .highway, 60⟩,
    ⟨"gurgaon_cyber_city", "iffco_chowk", 50/10, .highway, 50⟩,
    ⟨"lajpat_nagar", "kashmere_gate", 110/10, .main, 35⟩ ]

/-- `Map.get`: first binding for the key (a JS `Map` holds each key once). -/
def assocGet {α : Type} (m : List (String × α)) (k : String) : Option α :=
  (m.find? (fun p => p.1 == k)).map (·.2)

/-- `Map.set`: overwrite in place if the key is present (JS `Map.set`
keeps the original insertion position), otherwise append. -/
def assocSet {α : Type} (m : List (String × α)) (k : String) (v : α) :
    List (String × α) :=
  if m.any (fun p => p.1 == k) then
    m.map (fun p => if p.1 == k then (k, v) else p)
  else m ++ [(k, v)]

/-- `buildGraph` from `roadNetwork.ts`: initialize one empty adjacency
map per location, then add each road and its reverse edge (the
`graph.get(...)?.set(...)` optional chain silently skips endpoints
that are not initialized nodes). -/
def buildGraph : List (String × List (String × RoadEdge)) :=
  let init := locations.map (fun l => (l.1, ([] : List (String × RoadEdge))))
  roads.foldl
    (fun g road =>
      let g :=
        match assocGet g road.fromId with
        | some m => assocSet g road.fromId (assocSet m road.toId road)
        | none => g
      match assocGet g road.toId with
      | some m =>
        assocSet g road.toId
          (assocSet m road.fromId
            ⟨road.toId, road.fromId, road.distance, road.roadType, road.baseSpeed⟩)
      | none => g)
    init

/-- `graph.get(a)?.get(b)`: the declared edge from `a` to `b`, if any. -/
def edgeBetween (a b : String) : Option RoadEdge :=
  (assocGet buildGraph a).bind (fun m => assocGet m b)

/-- `calculatePathDistance` from `astar.ts`: walk the consecutive pairs
of the path and add the edge distance whenever the graph declares an
edge for the pair (pairs without a declared edge contribute nothing). -/
def calculatePathDistance : List String → ℚ
  | a :: b :: rest =>
    (match edgeBetween a b with
     | some e => e.distance
     | none => 0) + calculatePathDistance (b :: rest)
  | _ => 0

/-- `getPathSegments` from `astar.ts`: collect the declared edges along
the consecutive pairs of the path (pairs without a declared edge are
skipped). -/
def getPathSegments : List String → List RoadEdge
  | a :: b :: rest =>
    (match edgeBetween a b with
     | some e => [e]
     | none => []) ++ getPathSegments (b :: rest)
  | _ => []

/-! ## Path Search (`astar.ts`)

The A* heuristic in the source is haversine great-circle distance
(floating-point trigonometry).  It is modelled here as an injected
function `h : String → String → ℚ`; the search scales it by the
`heuristicWeight` parameter exactly as the source does
(`heuristic(from, to, weight) = haversine(...) * weight`; the
`Infinity` branch for unknown ids is unreachable because the search
only evaluates the heuristic on graph nodes, and every graph node is a
`locations` key).  All properties proved below hold for every `h`, in
particular for the haversine instance. -/

/-- The mutable per-node record of `astar.ts` (`{ id, gScore, fScore, parent }`). -/
structure ANode where
  id : String
  gScore : ℚ
  fScore : ℚ
  parent : Option String
deriving Repr

/-- `nodeMap` of `astar.ts`; object identity is per node id. -/
abbrev NodeMap := List (String × ANode)

/-- The `fScore` of an id's node record (every id in the open set has one). -/
def fscoreOf (m : NodeMap) (id : String) : ℚ :=
  ((assocGet m id).map (·.fScore)).getD 0

/-- `openSet.sort((a, b) => a.fScore - b.fScore)`: JS array sort is
stable, so a stable merge sort on the current `fScore`s. -/
def sortOpenSet (m : NodeMap) (openSet : List String) : List String :=
  openSet.mergeSort (fun a b => fscoreOf m a ≤ fscoreOf m b)

/-- `graph.get(id)` for the neighbor scan (`continue` on a missing entry). -/
def graphNeighbors (id : String) : List (String × RoadEdge) :=
  (assocGet buildGraph id).getD []

/-- `reconstructPath` from `astar.ts`: follow `parent` links from the
goal, prepending each visited id.  The source's `while` loop is given
explicit fuel; the caller passes more fuel than there are nodes, and
parent links produced by the search never cycle. -/
def reconstructPath (nodeMap : NodeMap) : ℕ → String → List String → List String
  | 0, current, acc => current :: acc
  | fuel + 1, current, acc =>
    match (assocGet nodeMap current).bind (·.parent) with
    | none => current :: acc
    | some p => reconstructPath nodeMap fuel p (current :: acc)

/-- One neighbor-relaxation step of the A* main loop, acting on the pair
(open set, node map); `closedSet` already contains the current node. -/
def relaxNeighbor (h : String → String → ℚ) (weight : ℚ) (endId : String)
    (closedSet : List String) (currentId : String) (currentG : ℚ)
    (st : List String × NodeMap) (nbr : String × RoadEdge) :
    List String × NodeMap :=
  if nbr.1 ∈ closedSet then st
  else
    let tentativeGScore := currentG + nbr.2.distance
    match assocGet st.2 nbr.1 with
    | none =>
      (st.1 ++ [nbr.1],
       assocSet st.2 nbr.1
         ⟨nbr.1, tentativeGScore, tentativeGScore + h nbr.1 endId * weight,
          some currentId⟩)
    | some neighbor =>
      if tentativeGScore < neighbor.gScore then
        let m := assocSet st.2 nbr.1
          ⟨nbr.1, tentativeGScore, tentativeGScore + h nbr.1 endId * weight,
           some currentId⟩
        if nbr.1 ∈ st.1 then (st.1, m) else (st.1 ++ [nbr.1], m)
      else st

/-- The `while (openSet.length > 0)` loop of `astar.ts`, with explicit
fuel (the caller passes more than the number of reachable nodes, and a
node never re-enters the open set after being closed). -/
def astarLoop (h : String → String → ℚ) (weight : ℚ) (endId : String) :
    ℕ → List String → NodeMap → List String → Option (List String)
  | 0, _, _, _ => none
  | fuel + 1, openSet, nodeMap, closedSet =>
    match sortOpenSet nodeMap openSet with
    | [] => none
    | current :: rest =>
      if current = endId then
        some (reconstructPath nodeMap (nodeMap.length + 1) endId [])
      else
        let closedSet := current :: closedSet
        let currentG := ((assocGet nodeMap current).map (·.gScore)).getD 0
        let st := (graphNeighbors current).foldl
          (relaxNeighbor h weight endId closedSet current currentG)
          (rest, nodeMap)
        astarLoop h weight endId fuel st.1 st.2 closedSet

/-- `astar` from `astar.ts`, parameterized by the base heuristic `h`
(haversine in the source): `none` when either endpoint is not a graph
node or the search exhausts the open set. -/
def astarWith (h : String → String → ℚ) (startId endId : String)
    (heuristicWeight : ℚ) : Option (List String) :=
  if (assocGet buildGraph startId).isSome ∧ (assocGet buildGraph endId).isSome then
    let startNode : ANode := ⟨startId, 0, h startId endId * heuristicWeight, none⟩
    astarLoop h heuristicWeight endId 1000 [startId] [(startId, startNode)] []
  else none

/-- `pathsEqual` from `astar.ts`: `false` when either argument is
`null`, otherwise equal length and element-wise equality. -/
def pathsEqual : Option (List String) → Option (List String) → Bool
  | some path1, some path2 =>
    path1.length == path2.length && (path1.zip path2).all (fun p => p.1 == p.2)
  | _, _ => false

/-- The first three weighted A* attempts of `findMultipleRoutes`
(weights 1.0, 0.6, 1.5), each kept only when distinct from the ones
already kept. -/
def firstThreeRoutes (route1 route2 route3 : Option (List String)) :
    List (List String) :=
  let routes : List (List String) :=
    match route1 with
    | some p => [p]
    | none => []
  let routes :=
    match route2 with
    | some p => if pathsEqual route1 (some p) then routes else routes ++ [p]
    | none => routes
  match route3 with
  | some p =>
    if pathsEqual route1 (some p) || pathsEqual route2 (some p) then routes
    else routes ++ [p]
  | none => routes

/-- The `if (routes.length < 3)` retry of `findMultipleRoutes`: attempt
weight 0.8 and keep the result only when distinct from every kept path. -/
def addFourthRoute (routes : List (List String)) (route4 : Option (List String)) :
    List (List String) :=
  if routes.length < 3 then
    match route4 with
    | some p =>
      if routes.any (fun r => pathsEqual (some r) (some p)) then routes
      else routes ++ [p]
    | none => routes
  else routes

/-- `findMultipleRoutes` from `astar.ts`, parameterized by the base
heuristic `h`: A* at weights 1.0, 0.6, 1.5, dropping duplicates, then
one more attempt at weight 0.8 when fewer than 3 distinct paths resulted. -/
def findMultipleRoutesWith (h : String → String → ℚ) (startId endId : String) :
    List (List String) :=
  let route1 := astarWith h startId endId 1
  let route2 := astarWith h startId endId (6/10)
  let route3 := astarWith h startId endId (15/10)
  let routes := firstThreeRoutes route1 route2 route3
  addFourthRoute routes (astarWith h startId endId (8/10))

/-! ## Junctions and Routes (`routeGenerator.ts`)

Database writes (`supabase` inserts) happen only outside demo mode and
do not affect the returned value, so they are not modelled.
`crypto.randomUUID()` ids and `Math.random()` draws are injected as
streams. -/

/-- A junction record (`Junction` of `types/route.ts`). -/
structure Junction where
  id : String
  route_id : String
  junction_name : String
  latitude : ℚ
  longitude : ℚ
  vehicles_waiting : ℤ
  time_without_ai : ℤ
  time_with_ai : ℤ
  crowd_density : CrowdLevel
  ai_optimization_active : Bool
deriving DecidableEq, Repr

/-- `generateJunctions` from `routeGenerator.ts`: one junction per 50
geometry points.  `uuid k` is the `crypto.randomUUID()` for the k-th
junction; `rand (2*k)` and `rand (2*k+1)` are its two `Math.random()`
draws (wait time, then vehicles).  The source `break`s at the first
index `≥ pathCoords.length`; since the indices increase, dropping every
out-of-range index is equivalent. -/
def generateJunctions (routeId : String) (pathCoords : List Coord)
    (uuid : ℕ → String) (rand : ℕ → ℚ) : List Junction :=
  let junctionCount := pathCoords.length / 50
  (List.range junctionCount).filterMap fun k =>
    let i := k + 1
    let index := i * 50
    match pathCoords.get? index with
    | none => none
    | some loc =>
      let timeWithoutAi : ℤ := ⌊rand (2 * k) * 60⌋ + 30
      let timeWithAi : ℤ := ⌊(timeWithoutAi : ℚ) * (7/10)⌋
      some
        { id := uuid k
          route_id := routeId
          junction_name := "Junction " ++ toString i
          latitude := loc.lat
          longitude := loc.lng
          vehicles_waiting := ⌊rand (2 * k + 1) * 20⌋
          time_without_ai := timeWithoutAi
          time_with_ai := timeWithAi
          crowd_density := .medium
          ai_optimization_active := true }

/-- A provider distance/time summary (`{ distance (m), travelTime (s) }`). -/
structure Summary where
  distance : ℚ
  travelTime : ℚ
deriving DecidableEq, Repr

/-- One geometry returned by the resolution pipeline
(`{ path, traffic_segments?, traffic_signals?, summary? }`). -/
structure RouteGeometry where
  path : List Coord
  traffic_segments : Option (List TrafficSeg)
  traffic_signals : Option (List TrafficSignal)
  summary : Option Summary
deriving DecidableEq, Repr

/-- A route record (`Route` of `types/route.ts`). -/
structure Route where
  id : String
  search_id : String
  route_name : String
  total_distance : ℚ
  estimated_time : ℚ
  crowd_level : CrowdLevel
  path_coordinates : List Coord
  traffic_segments : Option (List TrafficSeg)
  traffic_signals : Option (List TrafficSignal)
  is_optimal : Bool
  junctions : List Junction
deriving Repr

/-- `parseFloat(distance.toFixed(2))`: round to hundredths. -/
def roundTo2 (q : ℚ) : ℚ := (round (q * 100) : ℚ) / 100

/-- The `routeNames` array of `generateRoutes`. -/
def routeNames : List String := ["Optimal Route", "Alternative Route", "Secondary Route"]

/-- The body of the per-geometry loop of `generateRoutes`
(`routeGenerator.ts`): distance/time from the provider summary when
present (meters → km, seconds → minutes), otherwise the haversine sum
over the geometry (modelled by the injected `hsum`, floating-point
trigonometry in the source) at an assumed 30 km/h; crowd level from the
segment colors; `is_optimal` is simply `i === 0`. -/
def assembleRoute (searchId : String) (hsum : List Coord → ℚ)
    (uuid : ℕ → String) (juuid : ℕ → String) (rand : ℕ → ℚ)
    (i : ℕ) (geometry : RouteGeometry) : Route :=
  let segments := geometry.traffic_segments.getD []
  let dt : ℚ × ℚ :=
    match geometry.summary with
    | some s => (s.distance / 1000, s.travelTime / 60)
    | none =>
      let d := hsum geometry.path
      (d, d / 30 * 60)
  let crowdLevel := calculateCrowdFromSegments (some segments)
  let routeId := uuid i
  { id := routeId
    search_id := searchId
    route_name := (routeNames.get? i).getD ("Route " ++ toString (i + 1))
    total_distance := roundTo2 dt.1
    estimated_time := dt.2
    crowd_level := crowdLevel
    path_coordinates := geometry.path
    traffic_segments := geometry.traffic_segments
    traffic_signals := geometry.traffic_signals
    is_optimal := i == 0
    junctions := generateJunctions routeId geometry.path juuid rand }

/-- `generateRoutes` from `routeGenerator.ts`, as a function of the
geometries returned by `getDetailedRouteGeometry`: throws
(`Except.error`) when no geometry came back, otherwise assembles one
`Route` per geometry in order.  `uuid i` is the route id for candidate
`i`; `juuid i`/`rand i` are the id and random streams of its junction
generation. -/
def generateRoutes (searchId : String) (routeGeometries : List RouteGeometry)
    (hsum : List Coord → ℚ) (uuid : ℕ → String)
    (juuid : ℕ → ℕ → String) (rand : ℕ → ℕ → ℚ) :
    Except String (List Route) :=
  if routeGeometries.isEmpty then
    .error "No routes found between locations"
  else
    .ok (routeGeometries.enum.map fun p =>
      assembleRoute searchId hsum uuid (juuid p.1) (rand p.1) p.1 p.2)

/-- The scoring rule stated by the specification (§4.4), *not* present
anywhere in the source: `score = estimated_time_min * 0.7 +
total_distance_km * 0.3`.  Defined only to compare the code's
`is_optimal` flag against the specified rule. -/
def specScore (r : Route) : ℚ := r.estimated_time * (7/10) + r.total_distance * (3/10)

/-! ## Named route cache (`routeCache.ts`) -/

/-- The `routeCache` table: hand-curated geometries keyed by
`"StartName-EndName"`. -/
def routeCache : List (String × List Coord) :=
  [ ("Connaught Place-India Gate",
      [ ⟨286315/10000, 772167/10000⟩, ⟨286320/10000, 772180/10000⟩,
        ⟨286310/10000, 772200/10000⟩, ⟨286290/10000, 772230/10000⟩,
        ⟨286270/10000, 772260/10000⟩, ⟨286250/10000, 772290/10000⟩,
        ⟨286230/10000, 772295/10000⟩, ⟨286200/10000, 772295/10000⟩,
        ⟨286170/10000, 772290/10000⟩, ⟨286150/10000, 772285/10000⟩,
        ⟨286129/10000, 772295/10000⟩ ]),
    ("India Gate-Connaught Place",
      [ ⟨286129/10000, 772295/10000⟩, ⟨286150/10000, 772305/10000⟩,
        ⟨286170/10000, 772300/10000⟩, ⟨286200/10000, 772295/10000⟩,
        ⟨286250/10000, 772290/10000⟩, ⟨286270/10000, 772260/10000⟩,
        ⟨286290/10000, 772230/10000⟩, ⟨286310/10000, 772200/10000⟩,
        ⟨286320/10000, 772180/10000⟩, ⟨286315/10000, 772167/10000⟩ ]) ]

/-- `findCachedRouteByName` from `routeCache.ts`: exact
`"startName-endName"` key lookup. -/
def findCachedRouteByName (startName endName : String) : Option (List Coord) :=
  assocGet routeCache (startName ++ "-" ++ endName)

/-! ## Geometry Resolution Pipeline (`osrmService.ts`)

The provider calls (`fetchTomTomRoute`, `fetchMapboxRoute`,
`fetchOSRMRoute`) are network requests; their outcomes are injected as
parameters (`none` = error/null, `some []` = empty payload — the
pipeline treats both as failure). -/

/-- One parsed route of a TomTom response (`fetchTomTomRoute` element:
geometry, traffic segments, signals, summary). -/
structure TomTomRouteData where
  geometry : List Coord
  segments : List TrafficSeg
  signals : List TrafficSignal
  summary : Summary
deriving DecidableEq, Repr

/-- `path.zip path.tail`: the consecutive pairs walked by the
interpolation loop (`for i = 0 .. path.length - 2`). -/
def consecPairs {α : Type} (l : List α) : List (α × α) := l.zip l.tail

/-- `interpolatePoints` from `osrmService.ts`: quadratic Bézier from
`start` to `endP` through a control point offset perpendicular to the
segment; pushes `start`, then the curve points at `t = i / numPoints`
for `i = 1 .. numPoints - 1`, then `endP`. -/
def interpolatePoints (start endP : Coord) (numPoints : ℕ) : List Coord :=
  let midLat := (start.lat + endP.lat) / 2
  let midLng := (start.lng + endP.lng) / 2
  let dx := endP.lng - start.lng
  let dy := endP.lat - start.lat
  let offsetFactor : ℚ := 1/2
  let controlLat := midLat - dx * offsetFactor
  let controlLng := midLng + dy * offsetFactor
  (start :: (List.range (numPoints - 1)).map fun j =>
    let t : ℚ := (j + 1 : ℕ) / numPoints
    { lat := (1 - t) * (1 - t) * start.lat + 2 * (1 - t) * t * controlLat + t * t * endP.lat
      lng := (1 - t) * (1 - t) * start.lng + 2 * (1 - t) * t * controlLng + t * t * endP.lng })
  ++ [endP]

/-- Stage 5 of `getDetailedRouteGeometry` (synthetic fallback): for each
consecutive pair, all interpolated points but the last
(`segmentPoints.slice(0, -1)`), then the final input point. -/
def synthFallback (path : List Coord) : List Coord :=
  ((consecPairs path).flatMap fun p => (interpolatePoints p.1 p.2 20).dropLast)
  ++ path.getLast?.toList

/-- Stage 4 of `getDetailedRouteGeometry`: OSRM proxy, else synthetic
fallback. -/
def geometryStage4 (path : List Coord) (osrm : Option (List Coord)) :
    List RouteGeometry :=
  match osrm with
  | some ws =>
    if ws.isEmpty then [{ path := synthFallback path, traffic_segments := none,
                          traffic_signals := none, summary := none }]
    else [{ path := ws, traffic_segments := none, traffic_signals := none,
            summary := none }]
  | none => [{ path := synthFallback path, traffic_segments := none,
               traffic_signals := none, summary := none }]

/-- Stage 3 of `getDetailedRouteGeometry`: Mapbox, else stage 4. -/
def geometryStage3 (path : List Coord) (mapbox osrm : Option (List Coord)) :
    List RouteGeometry :=
  match mapbox with
  | some ws =>
    if ws.isEmpty then geometryStage4 path osrm
    else [{ path := ws, traffic_segments := none, traffic_signals := none,
            summary := none }]
  | none => geometryStage4 path osrm

/-- `getDetailedRouteGeometry` from `osrmService.ts` (the version whose
return shape `routeGenerator.ts` consumes): short paths are returned
as-is; the named-cache stage is **commented out in the source**
("DISABLED per user request"), so the pipeline goes straight to TomTom,
then Mapbox, then OSRM, then the synthetic curve.  `startName`/`endName`
are accepted but never consulted, exactly as in the source. -/
def getDetailedRouteGeometry (path : List Coord)
    (startName endName : Option String)
    (tomtom : Option (List TomTomRouteData))
    (mapbox osrm : Option (List Coord)) : List RouteGeometry :=
  if path.length < 2 then
    [{ path := path, traffic_segments := none, traffic_signals := none,
       summary := none }]
  else
    match tomtom with
    | some rs =>
      if rs.isEmpty then geometryStage3 path mapbox osrm
      else rs.map fun r =>
        { path := r.geometry, traffic_segments := some r.segments,
          traffic_signals := some r.signals, summary := some r.summary }
    | none => geometryStage3 path mapbox osrm

/-! # Properties -/

set_option maxRecDepth 2000000

/-- **C9.** For every declared road edge (a,b), the built adjacency
graph contains both an edge from a to b and a reverse edge from b to a
with equal distance, road class, and base speed, and no edge in the
graph is a self-loop. -/
theorem buildGraph_bidirectional_no_self_loops :
    (∀ e ∈ roads, e.fromId ≠ e.toId ∧
      edgeBetween e.fromId e.toId = some e ∧
      edgeBetween e.toId e.fromId =
        some ⟨e.toId, e.fromId, e.distance, e.roadType, e.baseSpeed⟩) ∧
    (∀ p ∈ buildGraph, ∀ q ∈ p.2, p.1 ≠ q.1) := by
  with_unfolding_all decide

/-- Witness for C9 at the first declared road (Connaught Place → India Gate). -/
theorem buildGraph_bidirectional_no_self_loops_witness :
    ((⟨"connaught_place", "india_gate", 25/10, .main, 35⟩ : RoadEdge) ∈ roads) ∧
    ("connaught_place" ≠ "india_gate" ∧
      edgeBetween "connaught_place" "india_gate" =
        some ⟨"connaught_place", "india_gate", 25/10, .main, 35⟩ ∧
      edgeBetween "india_gate" "connaught_place" =
        some ⟨"india_gate", "connaught_place", 25/10, .main, 35⟩) :=
  ⟨by with_unfolding_all decide,
   buildGraph_bidirectional_no_self_loops.1
     ⟨"connaught_place", "india_gate", 25/10, .main, 35⟩
     (by with_unfolding_all decide)⟩

/-- **C2 counterexample.** At a Saturday 18:00 clock time the
multiplier is 0.7, not the claimed 1.4 = 2.0 × 0.7: the rush-hour
brackets sit inside `if (!isWeekend)` and are skipped entirely on
weekends, so Saturday 18:00 falls through to the default bracket. -/
theorem trafficMultiplier_saturday_rush_counterexample :
    getCurrentTrafficMultiplier 6 18 = 7/10 ∧ (7/10 : ℚ) ≠ 14/10 := by
  constructor
  · with_unfolding_all decide
  · with_unfolding_all decide

/-- **C2 (amended).** The weekday 18:00 multiplier is 2.0, but the
rush-hour brackets apply only on weekdays: a weekend 18:00 falls
through to the default bracket and yields 1.0 × 0.7 = 0.7.  The 0.7
weekend dampener applies to every bracket reachable on a weekend
(late night 0.5, daytime 1.2, evening 0.8, default 1.0). -/
theorem trafficMultiplier_weekend_skips_rush :
    (∀ day, 1 ≤ day → day ≤ 5 → getCurrentTrafficMultiplier day 18 = 2) ∧
    (∀ day, day = 0 ∨ day = 6 → getCurrentTrafficMultiplier day 18 = 7/10) ∧
    (∀ day hour, (day = 0 ∨ day = 6) → hour < 24 →
      getCurrentTrafficMultiplier day hour =
        (if 23 ≤ hour ∨ hour < 6 then (1/2 : ℚ)
         else if 10 ≤ hour ∧ hour < 17 then 6/5
         else if 20 ≤ hour ∧ hour < 23 then 4/5
         else 1) * (7/10)) := by
  refine ⟨?_, ?_, ?_⟩
  · intro day h1 h5
    interval_cases day <;> with_unfolding_all decide
  · rintro day (rfl | rfl) <;> with_unfolding_all decide
  · rintro day hour (rfl | rfl) h24 <;> interval_cases hour <;> with_unfolding_all decide

/-- Witness for C2 (amended): Wednesday 18:00 and Saturday 18:00. -/
theorem trafficMultiplier_weekend_skips_rush_witness :
    ((1 ≤ 3 ∧ 3 ≤ 5) ∧ getCurrentTrafficMultiplier 3 18 = 2) ∧
    ((6 = 0 ∨ 6 = 6) ∧ getCurrentTrafficMultiplier 6 18 = 7/10) :=
  ⟨⟨⟨by decide, by decide⟩,
    trafficMultiplier_weekend_skips_rush.1 3 (by decide) (by decide)⟩,
   ⟨Or.inr rfl, trafficMultiplier_weekend_skips_rush.2.1 6 (Or.inr rfl)⟩⟩

/-- **C3 counterexample.** The pair (connaught_place, nehru_place) has no
declared edge, yet neither function fails on a path containing it:
`calculatePathDistance` returns the distance of the remaining declared
edge (8 km for nehru_place → india_gate) and `getPathSegments` returns
just that edge. -/
theorem pathFunctions_missing_edge_counterexample :
    edgeBetween "connaught_place" "nehru_place" = none ∧
    calculatePathDistance ["connaught_place", "nehru_place", "india_gate"] = 8 ∧
    getPathSegments ["connaught_place", "nehru_place", "india_gate"] =
      [⟨"nehru_place", "india_gate", 80/10, .main, 40⟩] := by
  refine ⟨?_, ?_, ?_⟩ <;> with_unfolding_all decide

/-- **C3 (amended).** Neither `calculatePathDistance` nor
`getPathSegments` raises on a consecutive pair with no declared edge:
both silently skip such pairs, `getPathSegments` returning exactly the
declared edges along the path and `calculatePathDistance` returning
the sum of their distances. -/
theorem pathFunctions_skip_missing_edges :
    (∀ path : List String,
      getPathSegments path =
        (path.zip path.tail).filterMap (fun p => edgeBetween p.1 p.2)) ∧
    (∀ path : List String,
      calculatePathDistance path =
        ((getPathSegments path).map (fun e => e.distance)).sum) := by
  constructor
  · intro path
    induction path with
    | nil => rfl
    | cons a rest ih =>
      cases rest with
      | nil => rfl
      | cons b rest' =>
        rw [getPathSegments]
        cases h : edgeBetween a b <;>
          simp [h, ih, List.zip_cons_cons, List.tail_cons]
  · intro path
    induction path with
    | nil => rfl
    | cons a rest ih =>
      cases rest with
      | nil => rfl
      | cons b rest' =>
        rw [calculatePathDistance, getPathSegments]
        cases h : edgeBetween a b <;> simp [h, ih]

/-- **C10.** The crowd classification used in route assembly returns
`low` for an absent or empty segment list; otherwise `high` exactly
when more than 30% of the segments are red (`#ef4444`), `medium` when
the red ratio exceeds 10% or the orange (`#f59e0b`) ratio exceeds 40%
(and it is not `high`), and `low` otherwise. -/
theorem calculateCrowdFromSegments_spec :
    calculateCrowdFromSegments none = .low ∧
    calculateCrowdFromSegments (some []) = .low ∧
    (∀ segs : List TrafficSeg, segs ≠ [] →
      (calculateCrowdFromSegments (some segs) = .high ↔
        3/10 < (segs.countP (fun s => s.color == "#ef4444") : ℚ) / segs.length) ∧
      (calculateCrowdFromSegments (some segs) = .medium ↔
        (segs.countP (fun s => s.color == "#ef4444") : ℚ) / segs.length ≤ 3/10 ∧
        (1/10 < (segs.countP (fun s => s.color == "#ef4444") : ℚ) / segs.length ∨
         2/5 < (segs.countP (fun s => s.color == "#f59e0b") : ℚ) / segs.length)) ∧
      (calculateCrowdFromSegments (some segs) = .low ↔
        (segs.countP (fun s => s.color == "#ef4444") : ℚ) / segs.length ≤ 1/10 ∧
        (segs.countP (fun s => s.color == "#f59e0b") : ℚ) / segs.length ≤ 2/5)) := by
  refine ⟨rfl, rfl, ?_⟩
  intro segs hne
  have hempty : segs.isEmpty = false := by
    simpa [List.isEmpty_iff] using hne
  simp only [calculateCrowdFromSegments, hempty, Bool.false_eq_true, if_false]
  set red : ℚ := (segs.countP (fun s => s.color == "#ef4444") : ℚ) / segs.length with hred
  set orange : ℚ := (segs.countP (fun s => s.color == "#f59e0b") : ℚ) / segs.length with horange
  split_ifs with h1 h2
  · refine ⟨iff_of_true rfl h1, ?_, ?_⟩
    · rw [false_iff]; rintro ⟨hle, -⟩; linarith
    · rw [false_iff]; rintro ⟨hle, -⟩; linarith
  · simp only [Bool.or_eq_true, decide_eq_true_eq] at h2
    rw [not_lt] at h1
    refine ⟨?_, iff_of_true rfl ⟨h1, h2⟩, ?_⟩
    · rw [false_iff]; intro hlt; linarith
    · rw [false_iff]; rintro ⟨hr, ho⟩
      rcases h2 with h | h <;> linarith
  · simp only [Bool.or_eq_true, decide_eq_true_eq] at h2
    push_neg at h2
    obtain ⟨hr, ho⟩ := h2
    rw [not_lt] at h1
    refine ⟨?_, ?_, iff_of_true rfl ⟨hr, ho⟩⟩
    · rw [false_iff]; intro hlt; linarith
    · rw [false_iff]; rintro ⟨-, hor⟩
      rcases hor with h | h <;> linarith

/-- Witness for C10: a single all-red segment list classifies as `high`. -/
theorem calculateCrowdFromSegments_spec_witness :
    (([⟨"#ef4444", 0, 1⟩] : List TrafficSeg) ≠ []) ∧
    (calculateCrowdFromSegments (some [⟨"#ef4444", 0, 1⟩]) = .high ↔
      3/10 < (([⟨"#ef4444", 0, 1⟩] : List TrafficSeg).countP
          (fun s => s.color == "#ef4444") : ℚ) /
        ([(⟨"#ef4444", 0, 1⟩ : TrafficSeg)] : List TrafficSeg).length) :=
  ⟨by decide, (calculateCrowdFromSegments_spec.2.2 _ (by decide)).1⟩

/-- **C8 counterexample.** For an input wait below the 15-second floor
the function returns the floor and therefore *exceeds* its input: at
input 10 s, crowd level high, seeded reduction factor 0.35
(`r = 1/3`), it returns 15 > 10. -/
theorem aiOptimizedTime_exceeds_small_input_counterexample :
    calculateAIOptimizedTime 10 .high (1/3) = 15 ∧
    ¬ ((calculateAIOptimizedTime 10 .high (1/3) : ℚ) ≤ 10) := by
  have h : calculateAIOptimizedTime 10 .high (1/3) = 15 := by
    with_unfolding_all decide
  refine ⟨h, ?_⟩
  rw [h]
  norm_num

/-- **C8 (amended).** For every input wait time and crowd level (with
the `Math.random()` draw `r` in `[0, 1)`), the result is at least 15
seconds, and it never exceeds the input *provided the input is at
least the 15-second floor*; in particular, for input 150 s at high
crowd level with a seeded reduction factor of 0.35 (`r = 1/3`), the
result is 98 = round(150 × 0.65). -/
theorem aiOptimizedTime_bounds :
    (∀ (w : ℚ) (lvl : CrowdLevel) (r : ℚ), 0 ≤ r → r < 1 →
      15 ≤ calculateAIOptimizedTime w lvl r ∧
      (15 ≤ w → (calculateAIOptimizedTime w lvl r : ℚ) ≤ w)) ∧
    calculateAIOptimizedTime 150 .high (1/3) = 98 := by
  constructor
  · intro w lvl r hr0 hr1
    simp only [calculateAIOptimizedTime]
    set f : ℚ := (match lvl with
      | CrowdLevel.low => 1/20 + r * (1/10)
      | CrowdLevel.medium => 1/5 + r * (3/20)
      | CrowdLevel.high => 3/10 + r * (3/20)) with hf
    have hf1 : 1/20 ≤ f := by
      rw [hf]; cases lvl <;> simp only [] <;> nlinarith
    have hf2 : f ≤ 9/20 := by
      rw [hf]; cases lvl <;> simp only [] <;> nlinarith
    constructor
    · rw [round_eq, Int.le_floor]
      have : (15 : ℚ) ≤ max 15 (w * (1 - f)) := le_max_left _ _
      push_cast
      linarith
    · intro hw
      rcases le_or_lt (w * (1 - f)) 15 with hle | hlt
      · rw [max_eq_left hle]
        have h15 : round (15 : ℚ) = 15 := by norm_num [round_eq]
        rw [h15]
        exact_mod_cast hw
      · rw [max_eq_right hlt.le]
        have hfl : ((round (w * (1 - f)) : ℤ) : ℚ) ≤ w * (1 - f) + 1/2 := by
          rw [round_eq]
          have := Int.floor_le (w * (1 - f) + 1/2)
          exact_mod_cast this
        nlinarith
  · with_unfolding_all decide

/-- Witness for C8 (amended) at input 150 s, high crowd, `r = 1/2`. -/
theorem aiOptimizedTime_bounds_witness :
    ((0 : ℚ) ≤ 1/2 ∧ (1/2 : ℚ) < 1) ∧
    (15 ≤ calculateAIOptimizedTime 150 .high (1/2) ∧
      (15 ≤ (150 : ℚ) → (calculateAIOptimizedTime 150 .high (1/2) : ℚ) ≤ 150)) :=
  ⟨⟨by norm_num, by norm_num⟩,
   aiOptimizedTime_bounds.1 150 .high (1/2) (by norm_num) (by norm_num)⟩

/-- **C7.** Every junction produced during route assembly satisfies
`time_with_ai ≤ time_without_ai`, with the with-AI wait at least 15 s
and the without-AI wait at least 20 s: the without-AI wait is
`⌊random*60⌋ + 30 ∈ [30, 89]` and the with-AI wait is 70% of it,
floored, hence in `[21, 62]`. -/
theorem generateJunctions_wait_time_invariants :
    ∀ (routeId : String) (pathCoords : List Coord)
      (uuid : ℕ → String) (rand : ℕ → ℚ),
      (∀ i, 0 ≤ rand i ∧ rand i < 1) →
      ∀ j ∈ generateJunctions routeId pathCoords uuid rand,
        j.time_with_ai ≤ j.time_without_ai ∧
        15 ≤ j.time_with_ai ∧ 20 ≤ j.time_without_ai := by
  intro routeId pathCoords uuid rand hr j hj
  simp only [generateJunctions, List.mem_filterMap, List.mem_range] at hj
  obtain ⟨k, hk, hjk⟩ := hj
  rcases hget : pathCoords.get? ((k + 1) * 50) with _ | loc <;> rw [hget] at hjk
  · exact absurd hjk (by simp)
  · obtain rfl := Option.some.inj hjk
    obtain ⟨hr0, hr1⟩ := hr (2 * k)
    set w : ℤ := ⌊rand (2 * k) * 60⌋ with hw
    have hw0 : 0 ≤ w := by
      rw [hw, Int.le_floor]
      push_cast
      nlinarith
    have hw0Q : (0 : ℚ) ≤ (w : ℚ) := by exact_mod_cast hw0
    have htw : (30 : ℚ) ≤ ((w + 30 : ℤ) : ℚ) := by push_cast; linarith
    refine ⟨?_, ?_, ?_⟩
    · show ⌊((w + 30 : ℤ) : ℚ) * (7/10)⌋ ≤ w + 30
      calc ⌊((w + 30 : ℤ) : ℚ) * (7/10)⌋
          ≤ ⌊((w + 30 : ℤ) : ℚ)⌋ := Int.floor_le_floor (by nlinarith)
        _ = w + 30 := Int.floor_intCast _
    · show (15 : ℤ) ≤ ⌊((w + 30 : ℤ) : ℚ) * (7/10)⌋
      rw [Int.le_floor]
      push_cast
      linarith
    · show (20 : ℤ) ≤ w + 30
      omega

/-- Witness for C7: a 51-point geometry (one junction) with all random
draws fixed to 1/2. -/
theorem generateJunctions_wait_time_invariants_witness :
    (∀ i : ℕ, 0 ≤ (fun (_ : ℕ) => (1/2 : ℚ)) i ∧ (fun (_ : ℕ) => (1/2 : ℚ)) i < 1) ∧
    (∀ j ∈ generateJunctions "r" (List.replicate 51 ⟨0, 0⟩)
        (fun _ => "u") (fun _ => (1/2 : ℚ)),
      j.time_with_ai ≤ j.time_without_ai ∧
      15 ≤ j.time_with_ai ∧ 20 ≤ j.time_without_ai) :=
  ⟨fun _ => ⟨by norm_num, by norm_num⟩,
   generateJunctions_wait_time_invariants "r" (List.replicate 51 ⟨0, 0⟩)
     (fun _ => "u") (fun _ => (1/2 : ℚ)) (fun _ => ⟨by norm_num, by norm_num⟩)⟩

/-- **C1 counterexample.** `generateRoutes` never computes the score
`time*0.7 + distance*0.3`: it marks the *first* provider geometry
optimal (`is_optimal: i === 0`).  With two summarized geometries
(20 min/10 km then 1 min/1 km) the flagged route has score 17 while the
unflagged one has score 1, so the flagged route does not minimize the
score. -/
theorem generateRoutes_optimal_not_min_score_counterexample :
    (generateRoutes "s"
        [⟨[⟨0, 0⟩, ⟨1, 1⟩], none, none, some ⟨10000, 1200⟩⟩,
         ⟨[⟨0, 0⟩, ⟨1, 1⟩], none, none, some ⟨1000, 60⟩⟩]
        (fun _ => 0) (fun i => toString i) (fun _ _ => "j")
        (fun _ _ => 1/2)).toOption.map
      (fun rs => (rs.map (fun r => r.is_optimal), rs.map specScore)) =
    some ([true, false], [17, 1]) := by
  with_unfolding_all decide

/-- **C1 (amended).** Every route list returned by `generateRoutes` is
non-empty and contains exactly one route with `is_optimal = true`,
namely the first candidate in generation order; the flag is assigned by
position (`i === 0`), not by the minimum of the score
`time*0.7 + distance*0.3` (no score is computed). -/
theorem generateRoutes_exactly_one_optimal_first :
    ∀ (searchId : String) (geoms : List RouteGeometry) (hsum : List Coord → ℚ)
      (uuid : ℕ → String) (juuid : ℕ → ℕ → String) (rand : ℕ → ℕ → ℚ)
      (routes : List Route),
      generateRoutes searchId geoms hsum uuid juuid rand = .ok routes →
      routes ≠ [] ∧
      routes.countP (fun r => r.is_optimal) = 1 ∧
      routes.head?.map (fun r => r.is_optimal) = some true := by
  intro searchId geoms hsum uuid juuid rand routes hok
  rw [generateRoutes] at hok
  split at hok
  · exact absurd hok (by simp)
  · rename_i hne
    obtain rfl := Except.ok.inj hok
    cases geoms with
    | nil => simp at hne
    | cons g gs =>
      rw [List.enum_cons, List.map_cons]
      have hhead : (assembleRoute searchId hsum uuid (juuid 0) (rand 0) 0 g).is_optimal
          = true := rfl
      have htail : (List.map (fun p : ℕ × RouteGeometry =>
          assembleRoute searchId hsum uuid (juuid p.1) (rand p.1) p.1 p.2)
          (List.enumFrom 1 gs)).countP (fun r => r.is_optimal) = 0 := by
        rw [List.countP_eq_zero]
        intro r hr
        obtain ⟨p, hp, rfl⟩ := List.mem_map.mp hr
        have h1 : 1 ≤ p.1 := List.le_fst_of_mem_enumFrom hp
        have : (p.1 == 0) = false := by
          simp only [beq_eq_false_iff_ne, ne_eq]
          omega
        simp [assembleRoute, this]
      refine ⟨by simp, ?_, by simp [hhead]⟩
      rw [List.countP_cons, htail, hhead]
      simp

/-- Witness for C1 (amended): a single synthetic geometry. -/
theorem generateRoutes_exactly_one_optimal_first_witness :
    generateRoutes "s" [⟨[⟨0, 0⟩, ⟨1, 1⟩], none, none, none⟩]
        (fun _ => 0) (fun i => toString i) (fun _ _ => "j") (fun _ _ => 1/2) =
      .ok [assembleRoute "s" (fun _ => 0) (fun i => toString i) (fun _ => "j")
        (fun _ => 1/2) 0 ⟨[⟨0, 0⟩, ⟨1, 1⟩], none, none, none⟩] ∧
    ([assembleRoute "s" (fun _ => 0) (fun i => toString i) (fun _ => "j")
        (fun _ => 1/2) 0 ⟨[⟨0, 0⟩, ⟨1, 1⟩], none, none, none⟩] : List Route) ≠ [] ∧
    ([assembleRoute "s" (fun _ => 0) (fun i => toString i) (fun _ => "j")
        (fun _ => 1/2) 0 ⟨[⟨0, 0⟩, ⟨1, 1⟩], none, none, none⟩].countP
        (fun r => r.is_optimal)) = 1 ∧
    ([assembleRoute "s" (fun _ => 0) (fun i => toString i) (fun _ => "j")
        (fun _ => 1/2) 0 ⟨[⟨0, 0⟩, ⟨1, 1⟩], none, none, none⟩].head?.map
        (fun r => r.is_optimal)) = some true :=
  ⟨rfl, generateRoutes_exactly_one_optimal_first "s"
    [⟨[⟨0, 0⟩, ⟨1, 1⟩], none, none, none⟩] (fun _ => 0) (fun i => toString i)
    (fun _ _ => "j") (fun _ _ => 1/2)
    [assembleRoute "s" (fun _ => 0) (fun i => toString i) (fun _ => "j")
      (fun _ => 1/2) 0 ⟨[⟨0, 0⟩, ⟨1, 1⟩], none, none, none⟩] rfl⟩

/-- **C4 counterexample.** The key "Connaught Place-India Gate" is in
the preloaded cache, yet with TomTom available the pipeline returns the
TomTom geometry, not the cached path: the cache stage is commented out
("DISABLED per user request") in the source. -/
theorem geometryCache_bypassed_counterexample :
    (findCachedRouteByName "Connaught Place" "India Gate").isSome = true ∧
    getDetailedRouteGeometry
        [⟨286315/10000, 772167/10000⟩, ⟨286129/10000, 772295/10000⟩]
        (some "Connaught Place") (some "India Gate")
        (some [⟨[⟨0, 0⟩, ⟨1, 1⟩], [], [], ⟨1000, 60⟩⟩]) none none =
      [{ path := [⟨0, 0⟩, ⟨1, 1⟩], traffic_segments := some [],
         traffic_signals := some [], summary := some ⟨1000, 60⟩ }] ∧
    (getDetailedRouteGeometry
        [⟨286315/10000, 772167/10000⟩, ⟨286129/10000, 772295/10000⟩]
        (some "Connaught Place") (some "India Gate")
        (some [⟨[⟨0, 0⟩, ⟨1, 1⟩], [], [], ⟨1000, 60⟩⟩]) none none).map
        (fun g => g.path) ≠
      [(findCachedRouteByName "Connaught Place" "India Gate").getD []] := by
  refine ⟨?_, ?_, ?_⟩ <;> with_unfolding_all decide

/-- **C4 (amended).** The named-cache stage of the pipeline is disabled
(commented out in the source): even when the "startName-endName" key is
present in the preloaded cache, `getDetailedRouteGeometry` consults the
providers and, whenever TomTom succeeds, returns the TomTom geometries
rather than the cached path. -/
theorem geometryCache_disabled_providers_first :
    ∀ (path : List Coord) (sn en : String) (rs : List TomTomRouteData)
      (mapbox osrm : Option (List Coord)),
      2 ≤ path.length →
      (findCachedRouteByName sn en).isSome = true →
      rs ≠ [] →
      getDetailedRouteGeometry path (some sn) (some en) (some rs) mapbox osrm =
        rs.map (fun r =>
          { path := r.geometry, traffic_segments := some r.segments,
            traffic_signals := some r.signals, summary := some r.summary }) := by
  intro path sn en rs mapbox osrm hlen hcache hne
  have h2 : ¬ path.length < 2 := by omega
  have hemp : rs.isEmpty = false := by simpa [List.isEmpty_iff] using hne
  simp [getDetailedRouteGeometry, h2, hemp]

/-- Witness for C4 (amended): the cached Connaught Place → India Gate
pair with a one-route TomTom response. -/
theorem geometryCache_disabled_providers_first_witness :
    (2 ≤ ([⟨286315/10000, 772167/10000⟩, ⟨286129/10000, 772295/10000⟩] : List Coord).length ∧
     (findCachedRouteByName "Connaught Place" "India Gate").isSome = true ∧
     ([⟨[⟨0, 0⟩, ⟨1, 1⟩], [], [], ⟨1000, 60⟩⟩] : List TomTomRouteData) ≠ []) ∧
    getDetailedRouteGeometry
        [⟨286315/10000, 772167/10000⟩, ⟨286129/10000, 772295/10000⟩]
        (some "Connaught Place") (some "India Gate")
        (some [⟨[⟨0, 0⟩, ⟨1, 1⟩], [], [], ⟨1000, 60⟩⟩]) none none =
      ([⟨[⟨0, 0⟩, ⟨1, 1⟩], [], [], ⟨1000, 60⟩⟩] : List TomTomRouteData).map (fun r =>
        { path := r.geometry, traffic_segments := some r.segments,
          traffic_signals := some r.signals, summary := some r.summary }) :=
  ⟨⟨by decide, by with_unfolding_all decide, by decide⟩,
   geometryCache_disabled_providers_first
     [⟨286315/10000, 772167/10000⟩, ⟨286129/10000, 772295/10000⟩]
     "Connaught Place" "India Gate" [⟨[⟨0, 0⟩, ⟨1, 1⟩], [], [], ⟨1000, 60⟩⟩]
     none none (by decide) (by with_unfolding_all decide) (by decide)⟩

/-- The interpolated segment minus its final point starts with the
segment's start point. -/
theorem interpolatePoints_dropLast_head (s e : Coord) (n : ℕ) :
    ((interpolatePoints s e n).dropLast).head? = some s := by
  simp only [interpolatePoints, List.dropLast_concat, List.head?_cons]

/-- Shape of the synthetic fallback on a list with at least two points:
non-empty, starts at the first input point, ends at the last. -/
theorem synthFallback_spec (a b : Coord) (rest : List Coord) :
    synthFallback (a :: b :: rest) ≠ [] ∧
    (synthFallback (a :: b :: rest)).head? = some a ∧
    (synthFallback (a :: b :: rest)).getLast? = (a :: b :: rest).getLast? := by
  rcases hx : (a :: b :: rest).getLast? with _ | x
  · simp at hx
  · have hsf : synthFallback (a :: b :: rest) =
        ((consecPairs (a :: b :: rest)).flatMap fun p =>
          (interpolatePoints p.1 p.2 20).dropLast) ++ [x] := by
      simp [synthFallback, hx]
    have hpairs : consecPairs (a :: b :: rest) =
        (a, b) :: consecPairs (b :: rest) := by
      simp [consecPairs]
    refine ⟨?_, ?_, ?_⟩
    · rw [hsf]
      exact List.append_ne_nil_of_right_ne_nil _ (by simp)
    · rw [hsf, hpairs, List.flatMap_cons]
      rcases hseg : (interpolatePoints a b 20).dropLast with _ | ⟨c, l'⟩
      · have := interpolatePoints_dropLast_head a b 20
        rw [hseg] at this
        exact absurd this (by simp)
      · have := interpolatePoints_dropLast_head a b 20
        rw [hseg] at this
        obtain rfl : c = a := by simpa using this
        simp
    · rw [hsf, List.getLast?_concat]


/-- **C5.** For every input of at least two coordinates, when the cache
misses and every external provider fails (`null` or empty), the
pipeline still returns exactly one non-empty Path — the synthetic
Bézier fallback — whose first and last points equal the first and last
input coordinates. -/
theorem geometryPipeline_fallback_endpoints :
    ∀ (path : List Coord) (startName endName : Option String)
      (tomtom : Option (List TomTomRouteData)) (mapbox osrm : Option (List Coord)),
      2 ≤ path.length →
      (∀ s e, startName = some s → endName = some e →
        findCachedRouteByName s e = none) →
      (tomtom = none ∨ tomtom = some []) →
      (mapbox = none ∨ mapbox = some []) →
      (osrm = none ∨ osrm = some []) →
      getDetailedRouteGeometry path startName endName tomtom mapbox osrm =
        [{ path := synthFallback path, traffic_segments := none,
           traffic_signals := none, summary := none }] ∧
      synthFallback path ≠ [] ∧
      (synthFallback path).head? = path.head? ∧
      (synthFallback path).getLast? = path.getLast? := by
  intro path sn en tomtom mapbox osrm hlen hcache ht hm ho
  cases path with
  | nil => simp at hlen
  | cons a t =>
    cases t with
    | nil => simp at hlen
    | cons b rest =>
      have h2 : ¬ (a :: b :: rest).length < 2 := by simp
      obtain ⟨hne, hh, hl⟩ := synthFallback_spec a b rest
      refine ⟨?_, hne, by simpa using hh, hl⟩
      rcases ht with rfl | rfl <;> rcases hm with rfl | rfl <;> rcases ho with rfl | rfl <;>
        simp [getDetailedRouteGeometry, geometryStage3, geometryStage4, h2]

/-- Witness for C5: the two-point path (0,0)–(1,1) with no display
names and all three providers failing. -/
theorem geometryPipeline_fallback_endpoints_witness :
    (2 ≤ ([⟨0, 0⟩, ⟨1, 1⟩] : List Coord).length) ∧
    (getDetailedRouteGeometry [⟨0, 0⟩, ⟨1, 1⟩] none none none none none =
        [{ path := synthFallback [⟨0, 0⟩, ⟨1, 1⟩], traffic_segments := none,
           traffic_signals := none, summary := none }] ∧
      synthFallback [⟨0, 0⟩, ⟨1, 1⟩] ≠ [] ∧
      (synthFallback [⟨0, 0⟩, ⟨1, 1⟩]).head? = ([⟨0, 0⟩, ⟨1, 1⟩] : List Coord).head? ∧
      (synthFallback [⟨0, 0⟩, ⟨1, 1⟩]).getLast? = ([⟨0, 0⟩, ⟨1, 1⟩] : List Coord).getLast?) :=
  ⟨by decide,
   geometryPipeline_fallback_endpoints [⟨0, 0⟩, ⟨1, 1⟩] none none none none none
     (by decide) (fun s e hs _ => nomatch hs) (Or.inl rfl) (Or.inl rfl) (Or.inl rfl)⟩

/-- `pathsEqual` reduces to `false` when the left argument is `null`. -/
theorem pathsEqual_none_left (x : Option (List String)) :
    pathsEqual none x = false := by
  cases x <;> rfl

/-- `pathsEqual` on two non-null paths decides list equality. -/
theorem pathsEqual_some_iff (a b : List String) :
    pathsEqual (some a) (some b) = true ↔ a = b := by
  induction a generalizing b with
  | nil => cases b <;> simp [pathsEqual]
  | cons x xs ih =>
    cases b with
    | nil => simp [pathsEqual]
    | cons y ys =>
      have hih := ih ys
      simp only [pathsEqual, Bool.and_eq_true, beq_iff_eq] at hih ⊢
      simp only [List.length_cons, List.zip_cons_cons, List.all_cons, Bool.and_eq_true,
        beq_iff_eq, List.cons.injEq]
      constructor
      · rintro ⟨hlen, hxy, hall⟩
        exact ⟨hxy, hih.mp ⟨by omega, hall⟩⟩
      · rintro ⟨rfl, rfl⟩
        exact ⟨rfl, rfl, (hih.mpr rfl).2⟩

/-- `firstThreeRoutes` keeps at most three paths. -/
theorem firstThreeRoutes_length (r1 r2 r3 : Option (List String)) :
    (firstThreeRoutes r1 r2 r3).length ≤ 3 := by
  rcases r1 with _ | p1 <;> rcases r2 with _ | p2 <;> rcases r3 with _ | p3 <;>
    simp only [firstThreeRoutes, pathsEqual_none_left, Bool.or_false, Bool.false_or] <;>
    (try split_ifs) <;> simp

/-- `firstThreeRoutes` keeps no duplicate node sequence. -/
theorem firstThreeRoutes_pairwise (r1 r2 r3 : Option (List String)) :
    (firstThreeRoutes r1 r2 r3).Pairwise (· ≠ ·) := by
  rcases r1 with _ | p1 <;> rcases r2 with _ | p2 <;> rcases r3 with _ | p3 <;>
    simp only [firstThreeRoutes, pathsEqual_none_left, Bool.or_false, Bool.false_or,
      Bool.or_eq_true] <;>
    (try split_ifs) <;>
    simp_all [pathsEqual_some_iff, List.pairwise_cons, not_or] <;>
    tauto

/-- `firstThreeRoutes` is empty only when the weight-1.0 search failed. -/
theorem firstThreeRoutes_eq_nil (r1 r2 r3 : Option (List String)) :
    firstThreeRoutes r1 r2 r3 = [] → r1 = none := by
  rcases r1 with _ | p1
  · intro _; rfl
  · intro hnil
    exfalso
    rcases r2 with _ | p2 <;> rcases r3 with _ | p3 <;>
      simp only [firstThreeRoutes, pathsEqual_none_left, Bool.or_false,
        Bool.false_or, Bool.or_eq_true] at hnil <;>
      (try split_ifs at hnil) <;> simp_all

/-- When the weight-1.0 search succeeds, its path is kept first. -/
theorem firstThreeRoutes_head (p : List String) (r2 r3 : Option (List String)) :
    (firstThreeRoutes (some p) r2 r3).head? = some p := by
  rcases r2 with _ | p2 <;> rcases r3 with _ | p3 <;>
    simp only [firstThreeRoutes, pathsEqual_none_left, Bool.or_false,
      Bool.false_or, Bool.or_eq_true] <;>
    (try split_ifs) <;> simp

/-- The weight-0.8 retry never grows the list beyond three. -/
theorem addFourthRoute_length (routes : List (List String))
    (r4 : Option (List String)) (h : routes.length ≤ 3) :
    (addFourthRoute routes r4).length ≤ 3 := by
  rw [addFourthRoute.eq_def]
  split_ifs with hlt
  · cases r4 with
    | none => exact h
    | some p4 =>
      dsimp only
      split_ifs with hany
      · exact h
      · simp only [List.length_append, List.length_singleton]
        omega
  · exact h

/-- The weight-0.8 retry keeps the no-duplicates invariant. -/
theorem addFourthRoute_pairwise (routes : List (List String))
    (r4 : Option (List String)) (h : routes.Pairwise (· ≠ ·)) :
    (addFourthRoute routes r4).Pairwise (· ≠ ·) := by
  rw [addFourthRoute.eq_def]
  split_ifs with hlt
  · cases r4 with
    | none => exact h
    | some p4 =>
      dsimp only
      split_ifs with hany
      · exact h
      · have hnotin : ∀ r ∈ routes, r ≠ p4 := by
          intro r hr heq
          exact hany (List.any_eq_true.mpr
            ⟨r, hr, (pathsEqual_some_iff r p4).mpr heq⟩)
        rw [List.pairwise_append]
        refine ⟨h, List.pairwise_singleton _ _, ?_⟩
        intro a ha b hb
        obtain rfl : b = p4 := by simpa using hb
        exact hnotin a ha
  · exact h

/-- The weight-0.8 retry returns empty only from an empty input. -/
theorem addFourthRoute_eq_nil (routes : List (List String))
    (r4 : Option (List String)) :
    addFourthRoute routes r4 = [] → routes = [] := by
  rw [addFourthRoute.eq_def]
  split_ifs with hlt
  · cases r4 with
    | none => exact id
    | some p4 =>
      dsimp only
      split_ifs with hany
      · exact id
      · intro hc
        exact absurd hc (by simp)
  · exact id

/-- The weight-0.8 retry only appends, so the head is unchanged. -/
theorem addFourthRoute_head (routes : List (List String))
    (r4 : Option (List String)) (hne : routes ≠ []) :
    (addFourthRoute routes r4).head? = routes.head? := by
  rw [addFourthRoute.eq_def]
  split_ifs with hlt
  · cases r4 with
    | none => rfl
    | some p4 =>
      dsimp only
      split_ifs with hany
      · rfl
      · rw [List.head?_append]
        cases routes with
        | nil => exact absurd rfl hne
        | cons a t => simp
  · rfl

/-- With three distinct paths already kept, weight 0.8 is not attempted. -/
theorem addFourthRoute_of_full (routes : List (List String))
    (r4 : Option (List String)) (h : ¬ routes.length < 3) :
    addFourthRoute routes r4 = routes := by
  rw [addFourthRoute.eq_def, if_neg h]

/-- **C6.** For every heuristic and node pair, `findMultipleRoutes`
returns at most 3 paths, no two of which are the same node sequence;
it returns an empty list only when the weight-1.0 A* search finds no
path; when the weight-1.0 search succeeds its path comes first (the
weights are tried in the order 1.0, 0.6, 1.5); and the weight-0.8
retry is attempted only when fewer than 3 distinct paths resulted from
the first three weights. -/
theorem findMultipleRoutes_spec :
    ∀ (h : String → String → ℚ) (startId endId : String),
      (findMultipleRoutesWith h startId endId).length ≤ 3 ∧
      (findMultipleRoutesWith h startId endId).Pairwise (· ≠ ·) ∧
      (findMultipleRoutesWith h startId endId = [] →
        astarWith h startId endId 1 = none) ∧
      (∀ p, astarWith h startId endId 1 = some p →
        (findMultipleRoutesWith h startId endId).head? = some p) ∧
      (3 ≤ (firstThreeRoutes (astarWith h startId endId 1)
              (astarWith h startId endId (6/10))
              (astarWith h startId endId (15/10))).length →
        findMultipleRoutesWith h startId endId =
          firstThreeRoutes (astarWith h startId endId 1)
            (astarWith h startId endId (6/10))
            (astarWith h startId endId (15/10))) := by
  intro h s e
  have hfmr : findMultipleRoutesWith h s e =
      addFourthRoute
        (firstThreeRoutes (astarWith h s e 1) (astarWith h s e (6/10))
          (astarWith h s e (15/10)))
        (astarWith h s e (8/10)) := rfl
  refine ⟨?_, ?_, ?_, ?_, ?_⟩
  · rw [hfmr]
    exact addFourthRoute_length _ _ (firstThreeRoutes_length _ _ _)
  · rw [hfmr]
    exact addFourthRoute_pairwise _ _ (firstThreeRoutes_pairwise _ _ _)
  · rw [hfmr]
    intro hnil
    exact firstThreeRoutes_eq_nil _ _ _ (addFourthRoute_eq_nil _ _ hnil)
  · intro p hp
    rw [hfmr, addFourthRoute_head]
    · rw [hp]
      exact firstThreeRoutes_head p _ _
    · intro hnil
      have h1 := firstThreeRoutes_eq_nil _ _ _ hnil
      rw [hp] at h1
      exact absurd h1 (by simp)
  · intro hfull
    rw [hfmr]
    exact addFourthRoute_of_full _ _ (by omega)

/-- Witness for C6: with the zero heuristic, Connaught Place → India
Gate succeeds at weight 1.0 with the direct two-node path, which is the
first returned route. -/
theorem findMultipleRoutes_spec_witness :
    astarWith (fun _ _ => 0) "connaught_place" "india_gate" 1 =
      some ["connaught_place", "india_gate"] ∧
    (findMultipleRoutesWith (fun _ _ => 0) "connaught_place" "india_gate").head? =
      some ["connaught_place", "india_gate"] :=
  ⟨by with_unfolding_all decide,
   (findMultipleRoutes_spec (fun _ _ => 0) "connaught_place" "india_gate").2.2.2.1
     ["connaught_place", "india_gate"] (by with_unfolding_all decide)⟩

end CrowdAware
